import Mathlib

/-
  Shallow embedding of the ESP32 ultrasonic occupancy node (src/src/main.cpp).

  Modelling conventions:
  - Distances are rationals (ℚ) standing in for the C float values; the
    properties verified here only compare and count distances, so the
    ordered-field abstraction of float is faithful for them.
  - The pulse duration returned by pulseIn is a natural number of
    microseconds; pulseIn returns 0 on timeout, which the code converts
    to a 0 cm distance.
  - Wall-clock time in the sampling loop is explicit: each iteration
    advances elapsed time by the per-sample measurement overhead plus the
    fixed delay MEASUREMENT_INTERVAL_MS, and the loop condition is the
    strict comparison millis() - startTime < ACTIVE_PERIOD_MS.
  - The WiFi status register is a stream of Boolean reads (one per call
    to WiFi.status()); the connect loop consumes reads exactly as the
    C++ while loop does.
  - The Firebase push result (Database.set returning ok) is an
    environment Boolean; the code only logs it.
-/

namespace Lab4

/-- Threshold distance in cm (OBJECT_THRESHOLD_CM = 50.0f). -/
def OBJECT_THRESHOLD_CM : ℚ := 50

/-- Active sampling period in ms (ACTIVE_PERIOD_MS = 5000). -/
def ACTIVE_PERIOD_MS : ℕ := 5000

/-- Sampling delay in ms (MEASUREMENT_INTERVAL_MS = 500). -/
def MEASUREMENT_INTERVAL_MS : ℕ := 500

/-- Minimum number of close readings (REQUIRED_COUNT = 6). -/
def REQUIRED_COUNT : ℕ := 6

/-- Deep sleep duration with no person (NO_PERSON_SLEEP_MS = 30000). -/
def NO_PERSON_SLEEP_MS : ℕ := 30000

/-- Deep sleep duration with a person (PERSON_SLEEP_MS = 10000). -/
def PERSON_SLEEP_MS : ℕ := 10000

/-- pulseIn timeout in microseconds (30000 in the call site). -/
def PULSE_TIMEOUT_US : ℕ := 30000

/-- WiFi connect retry budget (int retries = 20). -/
def CONNECT_RETRIES : ℕ := 20

/-- Per-attempt connect delay in ms (delay(500) in connectWiFi). -/
def CONNECT_DELAY_MS : ℕ := 500

/-- measureDistanceCM: distance = (duration * 0.034) / 2.0, with the pulse
duration in microseconds (0 when pulseIn timed out). -/
def measureDistanceCM (duration : ℕ) : ℚ :=
  ((duration : ℚ) * (34 / 1000)) / 2

/-- The running count kept by the sampling loop: number of samples with
dist < OBJECT_THRESHOLD_CM (the detectionCount++ branch). -/
def countClose (samples : List ℚ) : ℕ :=
  samples.countP (fun d => decide (d < OBJECT_THRESHOLD_CM))

/-- currentPersonPresent = (detectionCount >= REQUIRED_COUNT). -/
def classify (samples : List ℚ) : Bool :=
  decide (REQUIRED_COUNT ≤ countClose samples)

/-- The active sampling loop of setup: while (millis() - startTime <
ACTIVE_PERIOD_MS) take a sample, then delay MEASUREMENT_INTERVAL_MS.
`pulse i` is the pulseIn result of the i-th measurement, `ov i` the
wall-clock overhead of taking the i-th measurement itself. Returns the
sample window in arrival order. -/
def sampleLoop (pulse : ℕ → ℕ) (ov : ℕ → ℕ) (i : ℕ) (elapsed : ℕ) : List ℚ :=
  if elapsed < ACTIVE_PERIOD_MS then
    measureDistanceCM (pulse i) ::
      sampleLoop pulse ov (i + 1) (elapsed + ov i + MEASUREMENT_INTERVAL_MS)
  else
    []
termination_by ACTIVE_PERIOD_MS - elapsed
decreasing_by
  simp only [MEASUREMENT_INTERVAL_MS] at *
  omega

/-- connectWiFi retry loop: while (WiFi.status() != WL_CONNECTED && retries
> 0) { delay(500); retries--; }. `s` is the stream of WiFi.status() reads
(true = WL_CONNECTED), `idx` the index of the next unread status. Returns
the next unread index after the loop and the total milliseconds spent in
delay calls. Each loop-condition evaluation consumes one status read; the
&& short-circuits, so at retries = 0 the status is still read once. -/
def connectLoop (s : ℕ → Bool) : ℕ → ℕ → ℕ × ℕ
  | 0, idx => (idx + 1, 0)
  | r + 1, idx =>
    if s idx then
      (idx + 1, 0)
    else
      let p := connectLoop s r (idx + 1)
      (p.1, p.2 + CONNECT_DELAY_MS)

/-- connectWiFi: run the retry loop with budget CONNECT_RETRIES, then test
WiFi.status() == WL_CONNECTED once more for the success/failure report.
Returns (connected, total delay ms). -/
def connectWiFi (s : ℕ → Bool) : Bool × ℕ :=
  let p := connectLoop s CONNECT_RETRIES 0
  (s p.1, p.2)

/-- sendToFirebase: pushes the status value only when WiFi is connected;
otherwise only logs and sends nothing. Returns the value handed to
Database.set, if any. -/
def sendToFirebase (connected : Bool) (status : ℕ) : Option ℕ :=
  if connected then some status else none

/-- Environment of the report path: the stream of WiFi.status() reads and
the Boolean result of the Database.set call (the code only logs it). -/
structure NetEnv where
  wifiStatus : ℕ → Bool
  pushOk : Bool

/-- Observable outcome of the report-gate branch of setup. `reported` is
whether the state-change branch ran, `connectAttempted` whether connectWiFi
was called, `sent` the value pushed to Firebase (none when disconnected or
when no report was attempted), `pushResult` the logged Database.set result,
`disconnected` whether WiFi.disconnect ran, `newPrior` the value of
lastPersonPresent after the branch. -/
structure ReportOutcome where
  reported : Bool
  connectAttempted : Bool
  connected : Bool
  sent : Option ℕ
  pushResult : Option Bool
  disconnected : Bool
  newPrior : Bool

/-- The report gate of setup: if (currentPersonPresent != lastPersonPresent)
then connectWiFi, initFirebase, sendToFirebase(path, current ? 1 : 0),
WiFi.disconnect(true), lastPersonPresent = currentPersonPresent; else
nothing. -/
def maybeReport (env : NetEnv) (current prior : Bool) : ReportOutcome :=
  if current ≠ prior then
    let c := connectWiFi env.wifiStatus
    { reported := true
      connectAttempted := true
      connected := c.1
      sent := sendToFirebase c.1 (if current then 1 else 0)
      pushResult := if c.1 then some env.pushOk else none
      disconnected := true
      newPrior := current }
  else
    { reported := false
      connectAttempted := false
      connected := false
      sent := none
      pushResult := none
      disconnected := false
      newPrior := prior }

/-- Sleep duration selection of setup: sleepDuration = PERSON_SLEEP_MS when
a person is present, NO_PERSON_SLEEP_MS otherwise. -/
def sleepDurationFor (verdict : Bool) : ℕ :=
  if verdict then PERSON_SLEEP_MS else NO_PERSON_SLEEP_MS

/-- The phases of one wake cycle of the CycleController. -/
inductive Step where
  | SAMPLING
  | CLASSIFYING
  | REPORTING
  | SLEEPING
deriving DecidableEq, Repr

/-- Environment of one wake cycle: per-measurement pulseIn results,
per-measurement wall-clock overhead, and the network environment. -/
structure CycleEnv where
  pulse : ℕ → ℕ
  ov : ℕ → ℕ
  net : NetEnv

/-- Observable result of one execution of setup (one wake cycle). `sleepUs`
is the value handed to esp_sleep_enable_timer_wakeup (sleepDuration *
1000). `trace` is the sequence of phases the cycle passed through, ending
with the esp_deep_sleep_start call. -/
structure CycleResult where
  window : List ℚ
  verdict : Bool
  report : ReportOutcome
  newPrior : Bool
  sleepMs : ℕ
  sleepUs : ℕ
  trace : List Step

/-- One execution of setup, from the sampling loop to arming the deep-sleep
timer, started with `prior` as the RTC-retained lastPersonPresent. -/
def runCycle (env : CycleEnv) (prior : Bool) : CycleResult :=
  let window := sampleLoop env.pulse env.ov 0 0
  let current := classify window
  let rep := maybeReport env.net current prior
  let d := sleepDurationFor current
  { window := window
    verdict := current
    report := rep
    newPrior := rep.newPrior
    sleepMs := d
    sleepUs := d * 1000
    trace := [Step.SAMPLING, Step.CLASSIFYING] ++
      (if rep.reported then [Step.REPORTING] else []) ++ [Step.SLEEPING] }

end Lab4

namespace Lab4

/-- Claim C1: classify returns true iff the number of samples strictly below
the threshold is at least REQUIRED_COUNT, independent of sample order; in
particular exactly REQUIRED_COUNT close samples yields true and
REQUIRED_COUNT - 1 yields false. -/
theorem classify_iff_count (samples : List ℚ) :
    (classify samples = true ↔ REQUIRED_COUNT ≤ countClose samples) ∧
    (∀ samples2 : List ℚ, List.Perm samples samples2 →
      classify samples2 = classify samples) ∧
    (countClose samples = REQUIRED_COUNT → classify samples = true) ∧
    (countClose samples = REQUIRED_COUNT - 1 → classify samples = false) := by
  refine ⟨by simp [classify], ?_, ?_, ?_⟩
  · intro samples2 h
    simp [classify, countClose, h.countP_eq]
  · intro h
    simp [classify, h]
  · intro h
    simp [classify, h, REQUIRED_COUNT]

/-- Witness for C1 at concrete windows: six close samples out of ten give
presence, a permutation gives the same verdict, five close samples give
absence. -/
theorem classify_iff_count_witness :
    classify [40, 40, 40, 40, 40, 40, 60, 60, 60, 60] = true ∧
    classify [60, 60, 60, 60, 40, 40, 40, 40, 40, 40] = true ∧
    classify [40, 40, 40, 40, 40, 60, 60, 60, 60, 60] = false := by
  refine ⟨?_, ?_, ?_⟩
  · exact (classify_iff_count [40, 40, 40, 40, 40, 40, 60, 60, 60, 60]).2.2.1
      (by decide)
  · exact (classify_iff_count [40, 40, 40, 40, 40, 40, 60, 60, 60, 60]).2.1
      [60, 60, 60, 60, 40, 40, 40, 40, 40, 40] (by decide) |>.trans
      ((classify_iff_count [40, 40, 40, 40, 40, 40, 60, 60, 60, 60]).2.2.1
        (by decide))
  · exact (classify_iff_count [40, 40, 40, 40, 40, 60, 60, 60, 60, 60]).2.2.2
      (by decide)

/-- Helper: one iteration of the sampling loop while the active period has
not elapsed. -/
theorem sampleLoop_step (pulse ov : ℕ → ℕ) (i elapsed : ℕ)
    (h : elapsed < ACTIVE_PERIOD_MS) :
    sampleLoop pulse ov i elapsed =
      measureDistanceCM (pulse i) ::
        sampleLoop pulse ov (i + 1) (elapsed + ov i + MEASUREMENT_INTERVAL_MS) := by
  rw [sampleLoop]
  simp [h]

/-- Helper: the sampling loop stops once the active period has elapsed. -/
theorem sampleLoop_stop (pulse ov : ℕ → ℕ) (i elapsed : ℕ)
    (h : ¬ elapsed < ACTIVE_PERIOD_MS) :
    sampleLoop pulse ov i elapsed = [] := by
  rw [sampleLoop]
  simp [h]

/-- Helper: with zero per-measurement overhead, the loop takes one sample
per remaining multiple of the measurement interval. -/
theorem sampleLoop_length_zero_ov (pulse : ℕ → ℕ) :
    ∀ (n i elapsed : ℕ),
      elapsed + n * MEASUREMENT_INTERVAL_MS = ACTIVE_PERIOD_MS →
      (sampleLoop pulse (fun _ => 0) i elapsed).length = n := by
  intro n
  induction n with
  | zero =>
    intro i elapsed he
    rw [sampleLoop_stop]
    · rfl
    · omega
  | succ m ih =>
    intro i elapsed he
    have hlt : elapsed < ACTIVE_PERIOD_MS := by
      simp only [MEASUREMENT_INTERVAL_MS, ACTIVE_PERIOD_MS] at *
      omega
    rw [sampleLoop_step _ _ _ _ hlt]
    simp only [List.length_cons]
    rw [ih (i + 1) (elapsed + 0 + MEASUREMENT_INTERVAL_MS)
      (by simp only [MEASUREMENT_INTERVAL_MS, ACTIVE_PERIOD_MS] at *; omega)]

/-- Helper: the delay total of the connect loop is bounded by the retry
budget times the per-attempt delay. -/
theorem connectLoop_snd_le (s : ℕ → Bool) :
    ∀ (r idx : ℕ), (connectLoop s r idx).2 ≤ r * CONNECT_DELAY_MS := by
  intro r
  induction r with
  | zero =>
    intro idx
    simp [connectLoop]
  | succ n ih =>
    intro idx
    by_cases h : s idx
    · simp [connectLoop, h]
    · have hn := ih (idx + 1)
      simp only [connectLoop, h, if_false, Bool.false_eq_true]
      simp only [CONNECT_DELAY_MS] at *
      omega

/-- Helper: when every status read reports disconnected, the connect loop
runs its whole budget and spends one full delay per attempt. -/
theorem connectLoop_all_false (s : ℕ → Bool) (hs : ∀ i, s i = false) :
    ∀ (r idx : ℕ), connectLoop s r idx = (idx + r + 1, r * CONNECT_DELAY_MS) := by
  intro r
  induction r with
  | zero =>
    intro idx
    simp [connectLoop]
  | succ n ih =>
    intro idx
    have hn := ih (idx + 1)
    simp only [connectLoop, hs idx, Bool.false_eq_true, if_false, hn]
    refine Prod.ext ?_ ?_
    · simp
      omega
    · simp [CONNECT_DELAY_MS]
      ring

/-- Helper: the phase trace of a cycle always ends with SLEEPING. -/
theorem runCycle_trace_sleeping (env : CycleEnv) (prior : Bool) :
    (runCycle env prior).trace.getLast? = some Step.SLEEPING := by
  simp only [runCycle]
  cases (maybeReport env.net (classify (sampleLoop env.pulse env.ov 0 0)) prior).reported <;>
    simp

/-- Claim C2: a report is attempted iff the current verdict differs from the
stored prior state; when they agree, no network activity occurs and the
persistent state is unchanged; prior=false with current=true reports and
stores true, and current=true with prior=true does not report. -/
theorem maybeReport_policy (env : NetEnv) (current prior : Bool) :
    ((maybeReport env current prior).reported = true ↔ current ≠ prior) ∧
    (current = prior →
      (maybeReport env current prior).connectAttempted = false ∧
      (maybeReport env current prior).sent = none ∧
      (maybeReport env current prior).newPrior = prior) ∧
    ((maybeReport env true false).reported = true ∧
      (maybeReport env true false).newPrior = true) ∧
    (maybeReport env true true).reported = false := by
  refine ⟨?_, ?_, ?_, ?_⟩
  · cases current <;> cases prior <;> simp [maybeReport]
  · intro h
    subst h
    simp [maybeReport]
  · simp [maybeReport]
  · simp [maybeReport]

/-- Claim C3: whenever a report is attempted (current differs from prior),
lastPersonPresent is set to the current verdict unconditionally — the
environment (WiFi status stream, push result) is arbitrary, so this holds
even when the connect failed or Database.set returned an error. -/
theorem report_updates_state_unconditionally (env : NetEnv) (current prior : Bool)
    (h : current ≠ prior) :
    (maybeReport env current prior).reported = true ∧
    (maybeReport env current prior).newPrior = current := by
  simp [maybeReport, h]

/-- Witness for C3 at a concrete input where every WiFi status read is
disconnected and the push result is an error. -/
theorem report_updates_state_unconditionally_witness :
    (maybeReport ⟨fun _ => false, false⟩ true false).reported = true ∧
    (maybeReport ⟨fun _ => false, false⟩ true false).newPrior = true :=
  report_updates_state_unconditionally ⟨fun _ => false, false⟩ true false (by decide)

/-- Claim C4: the sleep-duration mapping returns PERSON_SLEEP_MS for a true
verdict and NO_PERSON_SLEEP_MS for a false verdict, and the two configured
durations are not equal. -/
theorem sleepDurationFor_spec :
    sleepDurationFor true = PERSON_SLEEP_MS ∧
    sleepDurationFor false = NO_PERSON_SLEEP_MS ∧
    PERSON_SLEEP_MS ≠ NO_PERSON_SLEEP_MS := by
  refine ⟨rfl, rfl, by decide⟩

/-- Claim C5: a timed-out echo (pulseIn result 0) converts to distance 0 cm,
which lies strictly below the threshold, so it counts as a close sample; and
the sampling loop still appends it to the window as one of the N samples
(one loop iteration always contributes exactly one sample). -/
theorem timeout_sample_is_close_and_counted :
    measureDistanceCM 0 = 0 ∧
    measureDistanceCM 0 < OBJECT_THRESHOLD_CM ∧
    (∀ l : List ℚ, countClose (measureDistanceCM 0 :: l) = countClose l + 1 ∧
      (measureDistanceCM 0 :: l).length = l.length + 1) ∧
    (∀ (pulse ov : ℕ → ℕ) (i elapsed : ℕ), elapsed < ACTIVE_PERIOD_MS →
      sampleLoop pulse ov i elapsed =
        measureDistanceCM (pulse i) ::
          sampleLoop pulse ov (i + 1) (elapsed + ov i + MEASUREMENT_INTERVAL_MS)) := by
  refine ⟨by norm_num [measureDistanceCM],
    by norm_num [measureDistanceCM, OBJECT_THRESHOLD_CM], ?_, ?_⟩
  · intro l
    refine ⟨?_, by simp⟩
    norm_num [countClose, List.countP_cons, measureDistanceCM, OBJECT_THRESHOLD_CM]
  · intro pulse ov i elapsed h
    rw [sampleLoop]
    simp [h]

/-- Claim C6: the WiFi connect step is a bounded retry loop (20 attempts,
500 ms delay each) that terminates with a success or failure report; with
the retry budget exhausted it reports failure after exactly 20 delays,
nothing is sent to Firebase when not connected, and the cycle still reaches
the SLEEPING phase. -/
theorem connect_retry_bounded (s : ℕ → Bool) :
    (connectWiFi s).2 ≤ CONNECT_RETRIES * CONNECT_DELAY_MS ∧
    ((∀ i, s i = false) →
      connectWiFi s = (false, CONNECT_RETRIES * CONNECT_DELAY_MS)) ∧
    (∀ status : ℕ, sendToFirebase false status = none) ∧
    (∀ (env : NetEnv) (current prior : Bool),
      (maybeReport env current prior).connected = false →
        (maybeReport env current prior).sent = none) ∧
    (∀ (pulse ov : ℕ → ℕ) (pushOk : Bool) (prior : Bool),
      (runCycle ⟨pulse, ov, ⟨s, pushOk⟩⟩ prior).trace.getLast? =
        some Step.SLEEPING) := by
  refine ⟨connectLoop_snd_le s CONNECT_RETRIES 0, ?_, ?_, ?_, ?_⟩
  · intro hs
    simp [connectWiFi, connectLoop_all_false s hs CONNECT_RETRIES 0, hs]
  · intro status
    simp [sendToFirebase]
  · intro env current prior h
    by_cases hcp : current = prior
    · simp [maybeReport, hcp]
    · simp [maybeReport, hcp] at h ⊢
      simp [sendToFirebase, h]
  · intro pulse ov pushOk prior
    exact runCycle_trace_sleeping ⟨pulse, ov, ⟨s, pushOk⟩⟩ prior

/-- Claim C7: a second report-gate call with the same current verdict, after
the first call has updated the prior state, never touches the network:
no connect is attempted, nothing is sent, no report happens. -/
theorem maybeReport_idempotent (env1 env2 : NetEnv) (current prior : Bool) :
    (maybeReport env2 current (maybeReport env1 current prior).newPrior).connectAttempted
      = false ∧
    (maybeReport env2 current (maybeReport env1 current prior).newPrior).sent = none ∧
    (maybeReport env2 current (maybeReport env1 current prior).newPrior).reported
      = false := by
  cases current <;> cases prior <;> simp [maybeReport]

/-- Claim C8: every wake cycle, for every environment (arbitrary pulse
durations including timeouts, arbitrary WiFi status stream including total
connect failure, arbitrary push result), ends in the SLEEPING phase with
the deep-sleep timer armed to the scheduled duration in microseconds. -/
theorem cycle_always_reaches_sleep (env : CycleEnv) (prior : Bool) :
    (runCycle env prior).trace.getLast? = some Step.SLEEPING ∧
    (runCycle env prior).sleepUs =
      sleepDurationFor (runCycle env prior).verdict * 1000 ∧
    ((runCycle env prior).sleepMs = PERSON_SLEEP_MS ∨
      (runCycle env prior).sleepMs = NO_PERSON_SLEEP_MS) := by
  refine ⟨runCycle_trace_sleeping env prior, by simp [runCycle], ?_⟩
  cases hv : classify (sampleLoop env.pulse env.ov 0 0) <;>
    simp [runCycle, sleepDurationFor, hv]

/-- Claim C9: with the active window at 5000 ms and the sample interval at
500 ms, an idealized-timing run of the sampling loop (zero per-measurement
overhead) collects exactly 10 samples, the loop condition being the strict
less-than comparison of elapsed wall-clock time. -/
theorem window_holds_ten_samples (pulse : ℕ → ℕ) :
    (sampleLoop pulse (fun _ => 0) 0 0).length = 10 :=
  sampleLoop_length_zero_ov pulse 10 0 0
    (by norm_num [MEASUREMENT_INTERVAL_MS, ACTIVE_PERIOD_MS])

/-- Claim C10: at the end of every wake cycle the persisted state equals the
verdict computed in that cycle, whatever the prior state and whatever the
report outcome; it is overwritten (report attempted) exactly when it
differed from the verdict, and otherwise left unchanged already equal. -/
theorem lastPersonPresent_invariant (env : CycleEnv) (prior : Bool) :
    (runCycle env prior).newPrior = (runCycle env prior).verdict ∧
    ((runCycle env prior).report.reported = true ↔
      (runCycle env prior).verdict ≠ prior) := by
  cases hv : classify (sampleLoop env.pulse env.ov 0 0) <;> cases prior <;>
    simp [runCycle, maybeReport, hv]

end Lab4
